import Mathlib

/-!
Shallow embedding of src/main.py, a FastAPI demo application whose handlers
echo their validated inputs back as response mappings.

Modelling choices:
* Python floats are modelled as rationals.
* Python datetimes and timedeltas are modelled as integers (seconds since an
  epoch, respectively a signed number of seconds); times of day as naturals.
* UUIDs are modelled as naturals (their 128-bit numeric value).
* A Python dict used as a response mapping is modelled as an ordered
  association list.  `dictUpdate` mirrors Python's `dict.update` with a
  single-key dict argument: an existing key keeps its position and gets the
  new value; a new key is appended at the end.
* Handler code that raises at runtime (the time-window handler adding
  optional values) returns `Option`, with `none` for the raised TypeError.
-/

namespace FastApiDemo

/-- The Image pydantic model of src/main.py (url is a string holding the
validated HttpUrl; name a string). -/
structure Image where
  url : String
  name : String
deriving DecidableEq, Repr

/-- The Item pydantic model of src/main.py: name, optional description,
price, optional tax, tags (default empty), optional list of images. -/
structure Item where
  name : String
  description : Option String
  price : ℚ
  tax : Option ℚ
  tags : List String
  image : Option (List Image)
deriving DecidableEq, Repr

/-- The User pydantic model of src/main.py. -/
structure User where
  username : String
  full_name : Option String
deriving DecidableEq, Repr

/-- The Offer pydantic model of src/main.py: name, optional description,
price, ordered list of items. -/
structure Offer where
  name : String
  description : Option String
  price : ℚ
  items : List Item
deriving DecidableEq, Repr

/-- The ModelName enumeration of src/main.py: a closed set of three
string-valued members. -/
inductive ModelName where
  | alexnet
  | resnet
  | lenet
deriving DecidableEq, Repr

/-- The string value of a ModelName member (the `.value` of the Python
str-Enum). -/
def ModelName.value : ModelName → String
  | .alexnet => "alexnet"
  | .resnet => "resnet"
  | .lenet => "lenet"

/-- JSON-like values appearing in the response mappings of the handlers. -/
inductive Val where
  | int (n : Int)
  | str (s : String)
  | rat (q : ℚ)
  | strList (l : List String)
  | imageList (l : List Image)
  | items (l : List Item)
  | item (i : Item)
  | user (u : User)
  | dt (t : Int)
  | td (d : Int)
  | tod (t : Nat)
  | uuid (u : Nat)
  | none
deriving DecidableEq, Repr

/-- Serialize an optional field: Python None becomes the null value. -/
def optVal (f : α → Val) : Option α → Val
  | Option.none => Val.none
  | some a => f a

/-- An ordered response mapping, as produced by the handlers. -/
abbrev Resp := List (String × Val)

/-- The keys of a response mapping, in order. -/
def keys (d : Resp) : List String := d.map Prod.fst

/-- Python `d.update` with a one-key dict: replace in place when the key
exists, append otherwise. -/
def dictUpdate (d : Resp) (k : String) (v : Val) : Resp :=
  if d.any (fun p => p.1 == k) then
    d.map (fun p => if p.1 == k then (k, v) else p)
  else
    d ++ [(k, v)]

/-- Handler `read_item` (GET /items/item_id) of src/main.py: start from a
mapping with item_id; add q when q is truthy (present and non-empty); add the
fixed long description when short is false. -/
def read_item (item_id : Int) (q : Option String) (short : Bool) : Resp :=
  let item : Resp := [("item_id", Val.int item_id)]
  let item := match q with
    | some s => if s.isEmpty then item else dictUpdate item "q" (Val.str s)
    | Option.none => item
  if short then item
  else dictUpdate item "description"
    (Val.str "This is an amazing item that has a long description")

/-- Handler `get_model` (GET /models/model_name) of src/main.py: dispatch on
the enum member, first by member comparison, then by value comparison. -/
def get_model (model_name : ModelName) : Resp :=
  if model_name = ModelName.alexnet then
    [("model_name", Val.str model_name.value),
     ("message", Val.str "Deep Learning FTW!")]
  else if model_name.value = "lenet" then
    [("model_name", Val.str model_name.value),
     ("message", Val.str "LeCNN all the images")]
  else
    [("model_name", Val.str model_name.value),
     ("message", Val.str "Have some residuals")]

/-- Enum validation for the model_name path parameter: only the three
declared literal values are accepted, anything else is an EnumMismatch. -/
def validateModelName (s : String) : Except String ModelName :=
  if s = "alexnet" then Except.ok ModelName.alexnet
  else if s = "resnet" then Except.ok ModelName.resnet
  else if s = "lenet" then Except.ok ModelName.lenet
  else Except.error "EnumMismatch: value is not one of alexnet, resnet, lenet"

/-- Serialization of an Item by `item.dict()` in src/main.py: the six fields
in declaration order. -/
def Item.dict (i : Item) : Resp :=
  [("name", Val.str i.name),
   ("description", optVal Val.str i.description),
   ("price", Val.rat i.price),
   ("tax", optVal Val.rat i.tax),
   ("tags", Val.strList i.tags),
   ("image", optVal Val.imageList i.image)]

/-- Handler `create_item` (POST /items/item_id) of src/main.py: serialize the
item; merge q when q is truthy; when item.tax is truthy (present and
non-zero) add item_id and price_with_tax = price + tax. -/
def create_item (item_id : Int) (item : Item) (q : Option (List String)) :
    Resp :=
  let item_dict := Item.dict item
  let item_dict := match q with
    | some l => if l.isEmpty then item_dict
                else dictUpdate item_dict "q" (Val.strList l)
    | Option.none => item_dict
  match item.tax with
  | some t =>
      if t = 0 then item_dict
      else
        dictUpdate (dictUpdate item_dict "item_id" (Val.int item_id))
          "price_with_tax" (Val.rat (item.price + t))
  | Option.none => item_dict

/-- Validation of the create_item path parameter item_id, which declares
gt=1 and le=1000 in src/main.py. -/
def create_item_id_valid (n : Int) : Bool :=
  decide (1 < n) && decide (n ≤ 1000)

/-- Pydantic validation of an Item body against the constraints declared in
src/main.py: description has max_length=300 and price has gt=0.  All
constraint violations are accumulated; success returns the typed Item with
every field value taken verbatim from the input. -/
def validateItem (name : String) (description : Option String) (price : ℚ)
    (tax : Option ℚ) (tags : List String) (image : Option (List Image)) :
    Except (List String) Item :=
  let errs :=
    (match description with
     | some d =>
         if d.length ≤ 300 then []
         else ["ConstraintViolation: description exceeds max_length 300"]
     | Option.none => []) ++
    (if 0 < price then []
     else ["ConstraintViolation: price must be greater than zero"])
  if errs.isEmpty then
    Except.ok ⟨name, description, price, tax, tags, image⟩
  else Except.error errs

/-- Handler `create_offer` (POST /offers/) of src/main.py: returns the
validated offer unchanged. -/
def create_offer (offer : Offer) : Offer := offer

/-- Serialization of an Offer response: the four fields in declaration
order, the items kept as an ordered sequence. -/
def Offer.dict (o : Offer) : Resp :=
  [("name", Val.str o.name),
   ("description", optVal Val.str o.description),
   ("price", Val.rat o.price),
   ("items", Val.items o.items)]

/-- Handler `create_index_weights` (POST /index-weights/) of src/main.py:
returns the validated mapping unchanged. -/
def create_index_weights (weights : List (Int × ℚ)) : List (Int × ℚ) :=
  weights

/-- The numeric value of a decimal digit character, if it is one. -/
def charDigit (c : Char) : Option Nat :=
  if '0' ≤ c ∧ c ≤ '9' then some (c.toNat - '0'.toNat) else Option.none

/-- Decimal interpretation of a digit sequence, accumulator style; fails on
any non-digit character. -/
def natOfDigits : List Char → Nat → Option Nat
  | [], acc => some acc
  | c :: cs, acc =>
    match charDigit c with
    | some d => natOfDigits cs (10 * acc + d)
    | Option.none => Option.none

/-- Coercion of a string wire key to an integer, as pydantic's int
validator does for dict keys: an optional leading minus sign followed by at
least one decimal digit. -/
def coerceIntKey (s : String) : Option Int :=
  match s.data with
  | [] => Option.none
  | '-' :: c :: cs => (natOfDigits (c :: cs) 0).map (fun n => -(n : Int))
  | c :: cs => (natOfDigits (c :: cs) 0).map (fun n => (n : Int))

/-- Pydantic validation of the weights body against its declared type
dict with int keys and float values: every string wire key is coerced to an
integer, and a non-numeric key is a type coercion failure. -/
def validateWeights : List (String × ℚ) → Except String (List (Int × ℚ))
  | [] => Except.ok []
  | (k, v) :: rest =>
    match coerceIntKey k with
    | some n =>
        match validateWeights rest with
        | Except.ok tail => Except.ok ((n, v) :: tail)
        | Except.error e => Except.error e
    | Option.none =>
        Except.error "TypeCoercionFailure: key is not a valid integer"

/-- Handler `read_items` (PUT /items-v2/item_id) of src/main.py.  The body
computes start_process = start_datetime + process_after and then
duration = end_datetime - start_process before building the response;
Python raises a TypeError (modelled as `none`) whenever an operand of either
arithmetic expression is None. -/
def read_items (item_id : Nat) (start_datetime end_datetime : Option Int)
    (repeat_at : Option Nat) (process_after : Option Int) : Option Resp :=
  match start_datetime, process_after with
  | some s, some p =>
    let start_process := s + p
    match end_datetime with
    | some e =>
      some [("item_id", Val.uuid item_id),
            ("start_datetime", Val.dt s),
            ("end_datetime", Val.dt e),
            ("repeat_at", optVal Val.tod repeat_at),
            ("process_after", Val.td p),
            ("start_process", Val.dt start_process),
            ("duration", Val.td (e - start_process))]
    | Option.none => Option.none
  | _, _ => Option.none

/-- The part of the create_item response contributed by the optional query
list q: present and non-empty lists are merged under key q, everything else
contributes nothing. -/
def qpart (q : Option (List String)) : Resp :=
  match q with
  | some l => if l.isEmpty then [] else [("q", Val.strList l)]
  | Option.none => []

/-- A concrete Item used to instantiate the universally quantified theorems
below (the example values documented in src/main.py). -/
def sampleItem : Item :=
  ⟨"Foo", some "A very nice Item", 35.4, some 3.2, [], Option.none⟩

/-- Handler `read_file` (GET /files/file_path) of src/main.py: echoes the
path-like string parameter. -/
def read_file (file_path : String) : Resp :=
  [("file_path", Val.str file_path)]

/-- Handler `read_item` (GET /items) of src/main.py, the query-parameter
variant (the source reuses the name read_item for it): echoes skip, limit
and needy. -/
def read_item_query (needy : String) (skip : Int) (limit : Option Int) :
    Resp :=
  [("skip", Val.int skip), ("limit", optVal Val.int limit),
   ("needy", Val.str needy)]

/-- Handler `read_user_item` (GET /users/user_id/items/item_id) of
src/main.py: item_id and owner_id, then q when q is truthy, then the fixed
long description when short is false. -/
def read_user_item (user_id : Int) (item_id : String) (q : Option String)
    (short : Bool) : Resp :=
  let item : Resp :=
    [("item_id", Val.str item_id), ("owner_id", Val.int user_id)]
  let item := match q with
    | some s => if s.isEmpty then item else dictUpdate item "q" (Val.str s)
    | Option.none => item
  if short then item
  else dictUpdate item "description"
    (Val.str "This is an amazing item that has a long description")

/-- Handler `update_item` (PUT /items/item_id) of src/main.py: item_id,
then each further field only when truthy.  A pydantic model instance is
always truthy in Python, so the optional item is included exactly when
present and the required user is included unconditionally; the int
importance is skipped when zero. -/
def update_item (item_id : Int) (q : Option String) (item : Option Item)
    (importance : Int) (user : User) : Resp :=
  let results : Resp := [("item_id", Val.int item_id)]
  let results := match q with
    | some s =>
        if s.isEmpty then results else dictUpdate results "q" (Val.str s)
    | Option.none => results
  let results := match item with
    | some i => dictUpdate results "item" (Val.item i)
    | Option.none => results
  let results := dictUpdate results "user" (Val.user user)
  if importance = 0 then results
  else dictUpdate results "importance" (Val.int importance)

/-- Handler `create_multiple_images` (POST /images/multiple/) of
src/main.py: returns the validated image list unchanged. -/
def create_multiple_images (images : List Image) : List Image := images

/-- C1: for every valid item-creation input (q absent, or present and
non-empty, as produced by query-list binding): when item.tax is present and
non-zero the response equals the serialized item fields merged with q (when
q is present, its entry appears) followed by item_id set to the path
parameter and price_with_tax = price + tax; when item.tax is absent or
zero, the response is just the item fields merged with q and contains
neither an item_id key nor a price_with_tax key. -/
theorem create_item_spec (item_id : Int) (item : Item)
    (q : Option (List String))
    (hq : q = Option.none ∨ ∃ l, q = some l ∧ l ≠ []) :
    (∀ t, item.tax = some t → t ≠ 0 →
      create_item item_id item q
        = Item.dict item ++ qpart q
          ++ [("item_id", Val.int item_id),
              ("price_with_tax", Val.rat (item.price + t))]
      ∧ ∀ l, q = some l → ("q", Val.strList l) ∈ create_item item_id item q)
    ∧ ((item.tax = Option.none ∨ item.tax = some 0) →
      create_item item_id item q = Item.dict item ++ qpart q
      ∧ "item_id" ∉ keys (create_item item_id item q)
      ∧ "price_with_tax" ∉ keys (create_item item_id item q)) := by
  rcases hq with rfl | ⟨l, rfl, hl⟩
  · constructor
    · intro t ht ht0
      refine ⟨?_, ?_⟩
      · simp [create_item, qpart, ht, ht0, Item.dict, dictUpdate]
      · intro l hql
        exact absurd hql (by simp)
    · intro htax
      have he : create_item item_id item Option.none
          = Item.dict item ++ qpart Option.none := by
        rcases htax with ht | ht <;> simp [create_item, qpart, ht]
      refine ⟨he, ?_, ?_⟩ <;> rw [he] <;>
        simp [keys, Item.dict, qpart]
  · constructor
    · intro t ht ht0
      have he : create_item item_id item (some l)
          = Item.dict item ++ qpart (some l)
            ++ [("item_id", Val.int item_id),
                ("price_with_tax", Val.rat (item.price + t))] := by
        simp [create_item, qpart, ht, ht0, Item.dict, dictUpdate,
          List.isEmpty_iff, hl]
      refine ⟨he, ?_⟩
      intro l2 hql
      cases hql
      rw [he]
      simp [qpart, List.isEmpty_iff, hl]
    · intro htax
      have he : create_item item_id item (some l)
          = Item.dict item ++ qpart (some l) := by
        rcases htax with ht | ht <;>
          simp [create_item, qpart, ht, Item.dict, dictUpdate,
            List.isEmpty_iff, hl]
      refine ⟨he, ?_, ?_⟩ <;> rw [he] <;>
        simp [keys, Item.dict, qpart, List.isEmpty_iff, hl]

/-- Witness for C1 at a concrete input: the sample item (tax 3.2) with path
parameter 5 and one-element query list. -/
theorem create_item_spec_witness :
    (some ["x"] = (Option.none : Option (List String))
      ∨ ∃ l, (some ["x"] : Option (List String)) = some l ∧ l ≠ [])
    ∧ create_item 5 sampleItem (some ["x"])
        = Item.dict sampleItem ++ qpart (some ["x"])
          ++ [("item_id", Val.int 5),
              ("price_with_tax", Val.rat (35.4 + 3.2))] :=
  ⟨Or.inr ⟨["x"], rfl, by simp⟩,
   ((create_item_spec 5 sampleItem (some ["x"])
      (Or.inr ⟨["x"], rfl, by simp⟩)).1 3.2 rfl (by norm_num)).1⟩

/-- C2: the time-window handler fails (raises, modelled as none) whenever
start_datetime or process_after is absent, and when both are present the
returned response includes start_process = start_datetime + process_after
and duration = end_datetime - start_process. -/
theorem read_items_time_window_spec (item_id : Nat)
    (sd ed : Option Int) (ra : Option Nat) (pa : Option Int) :
    ((sd = Option.none ∨ pa = Option.none) →
      read_items item_id sd ed ra pa = Option.none)
    ∧ (∀ s p e, sd = some s → pa = some p → ed = some e →
        ∃ r, read_items item_id sd ed ra pa = some r
          ∧ ("start_process", Val.dt (s + p)) ∈ r
          ∧ ("duration", Val.td (e - (s + p))) ∈ r) := by
  constructor
  · rintro (rfl | rfl)
    · cases pa <;> rfl
    · cases sd <;> rfl
  · rintro s p e rfl rfl rfl
    exact ⟨_, rfl, by simp, by simp⟩

/-- Witness for C2: a missing start_datetime makes the handler fail, and a
fully populated request yields start_process 130 and duration 370. -/
theorem read_items_time_window_witness :
    (read_items 7 Option.none (some 5) Option.none (some 3) = Option.none)
    ∧ ∃ r, read_items 7 (some 100) (some 500) Option.none (some 30) = some r
        ∧ ("start_process", Val.dt (100 + 30)) ∈ r
        ∧ ("duration", Val.td (500 - (100 + 30))) ∈ r :=
  ⟨(read_items_time_window_spec 7 Option.none (some 5) Option.none
      (some 3)).1 (Or.inl rfl),
   (read_items_time_window_spec 7 (some 100) (some 500) Option.none
      (some 30)).2 100 30 500 rfl rfl rfl⟩

/-- C10: the time-window handler also fails when end_datetime alone is
absent; it returns a result exactly when start_datetime, end_datetime and
process_after are all present, and that result carries all seven response
keys. -/
theorem read_items_requires_all_fields (item_id : Nat) (ra : Option Nat) :
    (∀ s p, read_items item_id (some s) Option.none ra (some p) = Option.none)
    ∧ (∀ sd ed pa, (read_items item_id sd ed ra pa).isSome = true ↔
        (sd.isSome = true ∧ ed.isSome = true ∧ pa.isSome = true))
    ∧ (∀ sd ed pa r, read_items item_id sd ed ra pa = some r →
        keys r = ["item_id", "start_datetime", "end_datetime", "repeat_at",
                  "process_after", "start_process", "duration"]) := by
  refine ⟨fun s p => rfl, ?_, ?_⟩
  · intro sd ed pa
    cases sd <;> cases ed <;> cases pa <;> simp [read_items]
  · intro sd ed pa r h
    cases sd <;> cases ed <;> cases pa <;> cases h
    rfl

/-- Witness for C10: end_datetime absent with the other two present fails,
and a fully populated request carries all seven keys. -/
theorem read_items_requires_all_fields_witness :
    read_items 1 (some 0) Option.none Option.none (some 1) = Option.none
    ∧ keys [("item_id", Val.uuid 1), ("start_datetime", Val.dt 0),
            ("end_datetime", Val.dt 5), ("repeat_at", Val.none),
            ("process_after", Val.td 2), ("start_process", Val.dt (0 + 2)),
            ("duration", Val.td (5 - (0 + 2)))]
        = ["item_id", "start_datetime", "end_datetime", "repeat_at",
           "process_after", "start_process", "duration"] :=
  ⟨(read_items_requires_all_fields 1 Option.none).1 0 1,
   (read_items_requires_all_fields 1 Option.none).2.2
     (some 0) (some 5) (some 2) _ rfl⟩

/-- C3: Item validation succeeds only when price is strictly positive, the
validated item keeps the input price verbatim (never clamped), and any
input with price at most zero is rejected with a ConstraintViolation. -/
theorem validateItem_price_spec (name : String) (description : Option String)
    (price : ℚ) (tax : Option ℚ) (tags : List String)
    (image : Option (List Image)) :
    (∀ it, validateItem name description price tax tags image = Except.ok it →
      0 < price ∧ it.price = price)
    ∧ (price ≤ 0 → ∃ errs,
        validateItem name description price tax tags image = Except.error errs
        ∧ "ConstraintViolation: price must be greater than zero" ∈ errs) := by
  constructor
  · intro it h
    unfold validateItem at h
    by_cases hp : 0 < price
    · refine ⟨hp, ?_⟩
      simp [hp] at h
      split at h
      · cases h with | refl => rfl
      · cases h
    · simp [hp] at h
  · intro hp
    have hnp : ¬ 0 < price := not_lt.mpr hp
    unfold validateItem
    cases description with
    | none =>
      exact ⟨["ConstraintViolation: price must be greater than zero"],
        by simp [hnp], by simp⟩
    | some d =>
      by_cases hd : d.length ≤ 300
      · exact ⟨["ConstraintViolation: price must be greater than zero"],
          by simp [hnp, hd], by simp⟩
      · exact ⟨["ConstraintViolation: description exceeds max_length 300",
                "ConstraintViolation: price must be greater than zero"],
          by simp [hnp, hd], by simp⟩

/-- Witness for C3: price 35.4 validates and is kept verbatim, while price
-1 is rejected with the price constraint violation. -/
theorem validateItem_price_witness :
    (0 < (35.4 : ℚ)
      ∧ (Item.mk "Foo" Option.none 35.4 Option.none [] Option.none).price
          = 35.4)
    ∧ ((-1 : ℚ) ≤ 0 ∧ ∃ errs,
        validateItem "Foo" Option.none (-1) Option.none [] Option.none
          = Except.error errs
        ∧ "ConstraintViolation: price must be greater than zero" ∈ errs) :=
  ⟨(validateItem_price_spec "Foo" Option.none 35.4 Option.none []
      Option.none).1 _ (by norm_num [validateItem]),
   ⟨by norm_num,
    (validateItem_price_spec "Foo" Option.none (-1) Option.none []
      Option.none).2 (by norm_num)⟩⟩

/-- C4: the create_item path parameter bounds (gt 1, le 1000) reject 1,
accept 1000 and reject 1001. -/
theorem create_item_id_bounds :
    create_item_id_valid 1 = false ∧ create_item_id_valid 1000 = true
    ∧ create_item_id_valid 1001 = false := by decide

/-- C5: the model lookup returns the fixed Deep-Learning message for
alexnet, the fixed LeCNN message for lenet and the fixed residuals message
for resnet, and every string outside the three-member enumeration is
rejected by enum validation before dispatch. -/
theorem get_model_spec :
    get_model ModelName.alexnet
      = [("model_name", Val.str "alexnet"),
         ("message", Val.str "Deep Learning FTW!")]
    ∧ get_model ModelName.lenet
      = [("model_name", Val.str "lenet"),
         ("message", Val.str "LeCNN all the images")]
    ∧ get_model ModelName.resnet
      = [("model_name", Val.str "resnet"),
         ("message", Val.str "Have some residuals")]
    ∧ ∀ s : String, s ≠ "alexnet" → s ≠ "resnet" → s ≠ "lenet" →
        validateModelName s
          = Except.error
              "EnumMismatch: value is not one of alexnet, resnet, lenet" := by
  refine ⟨by rfl, by rfl, by rfl, ?_⟩
  intro s h1 h2 h3
  simp [validateModelName, h1, h2, h3]

/-- Witness for C5: the string vgg is outside the enumeration and is
rejected with an EnumMismatch. -/
theorem get_model_spec_witness :
    ("vgg" ≠ "alexnet" ∧ "vgg" ≠ "resnet" ∧ "vgg" ≠ "lenet")
    ∧ validateModelName "vgg"
        = Except.error
            "EnumMismatch: value is not one of alexnet, resnet, lenet" :=
  ⟨⟨by decide, by decide, by decide⟩,
   get_model_spec.2.2.2 "vgg" (by decide) (by decide) (by decide)⟩

/-- Counterexample to C6 as stated: q = some empty string is present, yet
the response of read_item 3 (some empty) false carries no q key, because
the source tests Python truthiness rather than presence. -/
theorem read_item_q_counterexample :
    (some "" : Option String).isSome = true
    ∧ "q" ∉ keys (read_item 3 (some "") false) := by decide

/-- C6 amended: the item-lookup response is exactly item_id, then q when q
is present and non-empty, then the fixed long description when short is
false, and no other keys. -/
theorem read_item_spec (item_id : Int) (q : Option String) (short : Bool) :
    read_item item_id q short
      = [("item_id", Val.int item_id)]
        ++ (match q with
            | some s => if s.isEmpty then [] else [("q", Val.str s)]
            | Option.none => [])
        ++ (if short then []
            else [("description",
              Val.str "This is an amazing item that has a long description")]) := by
  cases q with
  | none => cases short <;> simp [read_item, dictUpdate]
  | some s =>
    by_cases hs : s.isEmpty <;> cases short <;>
      simp [read_item, dictUpdate, hs]

/-- C7: the index-weights body with string wire keys 1 and 2 validates to a
mapping with integer keys 1 and 2 carrying the given floats, and the
handler returns that mapping unchanged. -/
theorem index_weights_coercion :
    validateWeights [("1", 10.5), ("2", 3.25)]
      = Except.ok [(1, 10.5), (2, 3.25)]
    ∧ create_index_weights [(1, 10.5), (2, 3.25)] = [(1, 10.5), (2, 3.25)] :=
  ⟨rfl, rfl⟩

/-- C8: offer creation is the identity transform; every field and the
ordered item sequence survive unchanged, and re-serializing the returned
offer agrees with serializing the input, with the items entry carrying the
original ordered sequence. -/
theorem create_offer_roundtrip (o : Offer) :
    create_offer o = o
    ∧ (create_offer o).items = o.items
    ∧ (create_offer o).name = o.name
    ∧ (create_offer o).description = o.description
    ∧ (create_offer o).price = o.price
    ∧ Offer.dict (create_offer o) = Offer.dict o
    ∧ (Offer.dict (create_offer o)).lookup "items" = some (Val.items o.items) :=
  ⟨rfl, rfl, rfl, rfl, rfl, rfl, rfl⟩

/-- C9: every echo handler of src/main.py is a pure function of its
validated input (none of them reads or writes state outside its
parameters), so calling any of the eleven handlers twice with identical
input yields identical output mappings. -/
theorem echo_transforms_deterministic
    (i : Int) (qs : Option String) (b : Bool) (m : ModelName)
    (fp : String) (needy : String) (skip : Int) (limit : Option Int)
    (uid : Int) (sid : String)
    (iid : Int) (it : Item) (ql : Option (List String))
    (uiid : Int) (uq : Option String) (uit : Option Item)
    (imp : Int) (usr : User)
    (o : Offer) (imgs : List Image)
    (w : List (Int × ℚ)) (u : Nat) (sd ed : Option Int) (ra : Option Nat)
    (pa : Option Int) :
    read_item i qs b = read_item i qs b
    ∧ get_model m = get_model m
    ∧ read_file fp = read_file fp
    ∧ read_item_query needy skip limit = read_item_query needy skip limit
    ∧ read_user_item uid sid qs b = read_user_item uid sid qs b
    ∧ create_item iid it ql = create_item iid it ql
    ∧ update_item uiid uq uit imp usr = update_item uiid uq uit imp usr
    ∧ create_offer o = create_offer o
    ∧ create_multiple_images imgs = create_multiple_images imgs
    ∧ create_index_weights w = create_index_weights w
    ∧ read_items u sd ed ra pa = read_items u sd ed ra pa :=
  ⟨rfl, rfl, rfl, rfl, rfl, rfl, rfl, rfl, rfl, rfl, rfl⟩

end FastApiDemo

